import Mathlib

/-!
Verification of the Dooley Set-of-Mark (SoM) DOM annotation subsystem
(`window.DooleySOM` : `inject` / `cleanup`).

The JavaScript source is shallowly embedded: a DOM element becomes a record
of the fields the code reads (geometry from `getBoundingClientRect`, computed
style, the attributes consulted by the selector synthesizer and scanner, and
the ancestor/sibling data consumed by the structural-path walk).  The live
document becomes an explicit state (elements in document order plus the list
of rendered badge nodes), and `inject` becomes a pure function from that
state (plus viewport/scroll parameters) to the new state and the returned
manifest.  Pixel quantities are rationals, matching the exact arithmetic the
claims are about.
-/

namespace Dooley

/-- A bounding box as returned by `getBoundingClientRect`: `x`/`y` are the
viewport-relative coordinates of the top-left corner (`top = y`, `left = x`
for non-degenerate boxes), `width`/`height` the rendered size. -/
structure Rect where
  x : ℚ
  y : ℚ
  width : ℚ
  height : ℚ
  deriving DecidableEq, Repr

/-- `rect.top` as read by the filter (for boxes produced by layout this is
`y`). -/
def Rect.top (r : Rect) : ℚ := r.y

/-- `rect.left` as read by the filter. -/
def Rect.left (r : Rect) : ℚ := r.x

/-- The three computed-style fields the visibility filter reads
(`window.getComputedStyle(el)`), each the serialized computed value. -/
structure Style where
  display : String
  visibility : String
  opacity : String
  deriving DecidableEq, Repr

/-- One level of the ancestor chain, holding exactly the data the
structural-path walk in `getUniqueSelector` reads at that node: `tagName`
(upper-case, as the DOM reports it), the `id` attribute (`""` when absent),
the class list, and the tag names of the preceding element siblings
(`previousElementSibling` chain).  `nextTags` records the following element
siblings' tags; the source never reads them, but the specification's wording
about "same-tag siblings at this level" refers to them, so the model carries
them for comparison. -/
structure Level where
  tag : String
  eid : String
  classes : List String
  prevTags : List String
  nextTags : List String
  deriving DecidableEq, Repr

/-- A candidate DOM element: every field the `inject` code reads on `el`.
`eid`, `name`, `ariaLabel` use `""` for an absent/empty attribute (JavaScript
truthiness treats both alike).  `chain` is the element's own level followed
by its ancestors bottom-up, as visited by the `while` walk; for an element
produced by a real DOM, `chain.head` carries the element's own tag and id. -/
structure Elem where
  eid : String
  name : String
  ariaLabel : String
  tag : String
  hasHref : Bool
  role : String
  hasOnclick : Bool
  tabindex : Option String
  hasFor : Bool
  innerText : String
  value : String
  placeholder : String
  typeAttr : String
  rect : Rect
  style : Style
  chain : List Level
  deriving DecidableEq, Repr

/-- The scanner's candidate predicate: the disjunction of the fixed selector
list
`a[href], button, input, select, textarea, [role="button"], [role="link"],
[role="menuitem"], [role="checkbox"], [role="switch"], [onclick],
[tabindex]:not([tabindex="-1"]), label[for]`
evaluated on one element (tag names compared against the DOM's upper-case
`tagName`; `[tabindex]:not([tabindex="-1"])` is attribute presence plus
literal string inequality with `"-1"`). -/
def matchesInteractive (el : Elem) : Bool :=
  (el.tag = "A" && el.hasHref) ||
  el.tag = "BUTTON" || el.tag = "INPUT" || el.tag = "SELECT" || el.tag = "TEXTAREA" ||
  el.role = "button" || el.role = "link" || el.role = "menuitem" ||
  el.role = "checkbox" || el.role = "switch" ||
  el.hasOnclick ||
  (match el.tabindex with
   | some v => v ≠ "-1"
   | none => false) ||
  (el.tag = "LABEL" && el.hasFor)

/-- `document.querySelectorAll(interactiveSelectors.join(','))`: the static,
document-order list of elements matching the candidate predicate.  The
document is modelled as its pre-order element list. -/
def scan (doc : List Elem) : List Elem :=
  doc.filter matchesInteractive

/-- The visibility / geometry filter (the early `return`s in the `forEach`
body): `true` means the element is skipped. -/
def rejected (vw vh : ℚ) (el : Elem) : Bool :=
  if el.rect.width < 5 || el.rect.height < 5 then true
  else if el.style.display = "none" || el.style.visibility = "hidden" ||
          el.style.opacity = "0" then true
  else if el.rect.top < 0 || el.rect.left < 0 then true
  else if el.rect.top > vh || el.rect.left > vw then true
  else false

/-- `getRegion(x, y, w, h)`: classify the box's center into one of the seven
named screen zones, with the viewport dimensions `vw`, `vh` in scope. -/
def getRegion (vw vh : ℚ) (x y w h : ℚ) : String :=
  let centerX := x + w / 2
  let centerY := y + h / 2
  let vZone := if centerY < vh * (15 / 100) then "top"
               else if centerY > vh * (85 / 100) then "bottom"
               else "middle"
  let hZone := if centerX < vw * (2 / 10) then "left"
               else if centerX > vw * (8 / 10) then "right"
               else "center"
  if vZone = "top" then
    if hZone = "left" then "top-left-header"
    else if hZone = "right" then "top-right-header"
    else "top-header"
  else if vZone = "bottom" then "bottom-footer"
  else if hZone = "left" then "left-sidebar"
  else if hZone = "right" then "right-sidebar"
  else "main-content"

/-- `toLowerCase()` on a tag name, character by character. -/
def lowerString (s : String) : String :=
  String.mk (s.data.map Char.toLower)

/-- One iteration of the structural-path `while` loop: the fragment built for
`current` before the `nth-of-type` adjustment — lower-cased tag, classes
dot-appended when the class list is non-empty. -/
def baseFragment (l : Level) : String :=
  lowerString l.tag ++
    (if l.classes.length > 0 then "." ++ String.intercalate "." l.classes else "")

/-- `nth` as computed by the inner sibling loop: `1` plus the number of
preceding element siblings with the same `tagName`. -/
def nthOfType (l : Level) : Nat :=
  1 + (l.prevTags.filter (fun t => t = l.tag)).length

/-- The structural-path walk of `getUniqueSelector` (lines building `path`):
processes the chain bottom-up, prepending each level's fragment
(`path.unshift`), breaking with `#id` at the first level whose `id` is
truthy.  `path` is the accumulator, leaf-most fragments at its tail. -/
def buildPath : List Level → List String → List String
  | [], path => path
  | l :: rest, path =>
    if l.eid ≠ "" then ("#" ++ l.eid) :: path
    else
      let sel := baseFragment l
      let sel := if nthOfType l > 1 then
                   sel ++ ":nth-of-type(" ++ toString (nthOfType l) ++ ")"
                 else sel
      buildPath rest (sel :: path)

/-- `getUniqueSelector(el)`: id, then name, then aria-label, then the
structural ancestor path joined with `' > '`. -/
def getUniqueSelector (el : Elem) : String :=
  if el.eid ≠ "" then "#" ++ el.eid
  else if el.name ≠ "" then "[name=\"" ++ el.name ++ "\"]"
  else if el.ariaLabel ≠ "" then "[aria-label=\"" ++ el.ariaLabel ++ "\"]"
  else String.intercalate " > " (buildPath el.chain [])

/-- The `text` field of a manifest entry:
`el.innerText?.slice(0, 100) || el.value || el.getAttribute('placeholder') ||
el.getAttribute('aria-label') || ''` — JavaScript `||` falls through on the
empty string. -/
def labelOf (el : Elem) : String :=
  let t := el.innerText.take 100
  if t ≠ "" then t
  else if el.value ≠ "" then el.value
  else if el.placeholder ≠ "" then el.placeholder
  else if el.ariaLabel ≠ "" then el.ariaLabel
  else ""

/-- A rendered badge node (class `dooley-som-badge`): its text content (the
stringified id) and its scroll-adjusted absolute position. -/
structure Badge where
  textContent : String
  left : ℚ
  top : ℚ
  deriving DecidableEq, Repr

/-- One manifest entry as pushed onto `badges` (the returned array). -/
structure ManifestEntry where
  id : Nat
  selector : String
  text : String
  tagName : String
  type : String
  region : String
  rect : Rect
  deriving DecidableEq, Repr

/-- The badge node created for a surviving element with the current
`badgeId`. -/
def mkBadge (scrollX scrollY : ℚ) (badgeId : Nat) (el : Elem) : Badge :=
  { textContent := toString badgeId
    left := el.rect.left + scrollX
    top := el.rect.top + scrollY }

/-- The manifest entry pushed for a surviving element with the current
`badgeId`. -/
def mkEntry (vw vh : ℚ) (badgeId : Nat) (el : Elem) : ManifestEntry :=
  { id := badgeId
    selector := getUniqueSelector el
    text := labelOf el
    tagName := lowerString el.tag
    type := el.typeAttr
    region := getRegion vw vh el.rect.x el.rect.y el.rect.width el.rect.height
    rect := el.rect }

/-- The `elements.forEach` loop: walks the candidate list with the mutable
`badgeId` made explicit, returning the badge nodes appended to the body and
the entries pushed onto the returned array, in order. -/
def injectLoop (vw vh scrollX scrollY : ℚ) :
    List Elem → Nat → List Badge × List ManifestEntry
  | [], _ => ([], [])
  | el :: rest, badgeId =>
    if rejected vw vh el then injectLoop vw vh scrollX scrollY rest badgeId
    else
      let r := injectLoop vw vh scrollX scrollY rest (badgeId + 1)
      (mkBadge scrollX scrollY badgeId el :: r.1,
       mkEntry vw vh badgeId el :: r.2)

/-- The document state `inject`/`cleanup` act on: the page's elements in
document order (the badge `div`s are bare `div`s matching none of the
interactive selectors, so they are modelled apart from `elems`) and the
currently rendered badge nodes. -/
structure DocState where
  elems : List Elem
  badges : List Badge
  deriving DecidableEq, Repr

/-- `DooleySOM.inject()`: remove every existing `.dooley-som-badge` node,
enumerate the candidates, run the annotation loop with `badgeId` starting at
1, and return the new state (same elements, freshly created badges) together
with the manifest. -/
def inject (vw vh scrollX scrollY : ℚ) (s : DocState) :
    DocState × List ManifestEntry :=
  let elements := scan s.elems
  let r := injectLoop vw vh scrollX scrollY elements 1
  ({ elems := s.elems, badges := r.1 }, r.2)

/-- `DooleySOM.cleanup()`: remove every `.dooley-som-badge` node. -/
def cleanup (s : DocState) : DocState :=
  { s with badges := [] }

/-! ## Specification-side definitions

Each `spec…` definition below transcribes the specification's (or a claim's)
wording, to be compared against the source-derived definition above; each
`amended…` definition transcribes a corrected reading. -/

/-- The vertical zones of the region classifier, as the specification's
tagged enumeration. -/
inductive VZone
  | top
  | bottom
  | middle
  deriving DecidableEq, Repr

/-- The horizontal zones of the region classifier. -/
inductive HZone
  | left
  | right
  | center
  deriving DecidableEq, Repr

/-- Spec wording: center in the top 15% of viewport height gives `top`, else
bottom 15% gives `bottom`, else `middle`. -/
def specVZone (vh centerY : ℚ) : VZone :=
  if centerY < vh * (15 / 100) then .top
  else if centerY > vh * (85 / 100) then .bottom
  else .middle

/-- Spec wording: center in the left 20% of viewport width gives `left`,
right 20% gives `right`, else `center`. -/
def specHZone (vw centerX : ℚ) : HZone :=
  if centerX < vw * (20 / 100) then .left
  else if centerX > vw * (80 / 100) then .right
  else .center

/-- The spec's explicit zone-pair-to-name table, bottom collapsing the
horizontal distinction. -/
def specRegionName : VZone → HZone → String
  | .top, .left => "top-left-header"
  | .top, .right => "top-right-header"
  | .top, .center => "top-header"
  | .bottom, _ => "bottom-footer"
  | .middle, .left => "left-sidebar"
  | .middle, .right => "right-sidebar"
  | .middle, .center => "main-content"

/-- The region classifier as the spec words it: classify the box's center
into independent vertical/horizontal zones, then apply the naming table. -/
def specRegion (vw vh x y w h : ℚ) : String :=
  specRegionName (specVZone vh (y + h / 2)) (specHZone vw (x + w / 2))

/-- The number of same-tag siblings at a level (the element itself plus its
preceding and following same-tag element siblings) — the quantity the spec's
"more than one sibling of that tag exists at this level" refers to. -/
def sameTagSiblingCount (l : Level) : Nat :=
  (l.prevTags.filter (fun t => t = l.tag)).length + 1 +
    (l.nextTags.filter (fun t => t = l.tag)).length

/-- One per-level fragment as the spec words it: lower-cased tag, class
names appended dot-joined when present, and a `:nth-of-type(k)` qualifier
(`k` the 1-based position among same-tag siblings) appended when more than
one sibling of that tag exists at the level. -/
def specFragment (l : Level) : String :=
  lowerString l.tag ++
    (if l.classes = [] then "" else "." ++ String.intercalate "." l.classes) ++
    (if sameTagSiblingCount l > 1 then
       ":nth-of-type(" ++ toString (nthOfType l) ++ ")"
     else "")

/-- The per-level fragments of the spec's structural path, collected
bottom-up with the same root-first accumulator as the source's walk, the
walk stopping at the first level with an identifier (which contributes
`#<identifier>`). -/
def specCollect : List Level → List String → List String
  | [], acc => acc
  | l :: rest, acc =>
    if l.eid ≠ "" then ("#" ++ l.eid) :: acc
    else specCollect rest (specFragment l :: acc)

/-- The structural path as the claim words it: the per-level fragments
joined root-to-leaf with the descendant combinator (a space). -/
def specStructuralPath (chain : List Level) : String :=
  String.intercalate " " (specCollect chain [])

/-- A per-level fragment under the amended reading: the `:nth-of-type(k)`
qualifier is appended exactly when the element has at least one preceding
same-tag sibling, i.e. when its 1-based position `k` is at least 2. -/
def amendedFragment (l : Level) : String :=
  lowerString l.tag ++
    (if l.classes = [] then "" else "." ++ String.intercalate "." l.classes) ++
    (if 2 ≤ nthOfType l then
       ":nth-of-type(" ++ toString (nthOfType l) ++ ")"
     else "")

/-- The levels contributing to the amended structural path: every level up
to and including the first with an identifier attribute (which contributes
`#<identifier>`), leaf first. -/
def amendedCollect : List Level → List String
  | [] => []
  | l :: rest =>
    if l.eid ≠ "" then ["#" ++ l.eid]
    else amendedFragment l :: amendedCollect rest

/-- The structural path under the amended reading: fragments ordered
root-to-leaf, joined with the child combinator `' > '`. -/
def amendedStructuralPath (chain : List Level) : String :=
  String.intercalate " > " (amendedCollect chain).reverse

/-- Digit-string accumulator: `none` when a non-digit is met. -/
def parseNatAux : List Char → Nat → Option Nat
  | [], acc => some acc
  | c :: rest, acc =>
    if c.isDigit then parseNatAux rest (acc * 10 + (c.toNat - 48)) else none

/-- A non-empty all-digit character list as a natural number. -/
def parseNatChars (cs : List Char) : Option Nat :=
  if cs = [] then none else parseNatAux cs 0

/-- A decimal integer literal, an optional leading minus sign followed by
digits. -/
def parseInt? (s : String) : Option Int :=
  match s.data with
  | '-' :: rest => (parseNatChars rest).map (fun n => -(n : Int))
  | cs => (parseNatChars cs).map (fun n => (n : Int))

/-- The scanner predicate as the claim words it, the tab-index clause
reading "a non-negative explicit tab index": the attribute is present and
its value parses to an integer that is not negative. -/
def specInteractive (el : Elem) : Bool :=
  (el.tag = "A" && el.hasHref) ||
  el.tag = "BUTTON" || el.tag = "INPUT" || el.tag = "SELECT" || el.tag = "TEXTAREA" ||
  el.role = "button" || el.role = "link" || el.role = "menuitem" ||
  el.role = "checkbox" || el.role = "switch" ||
  el.hasOnclick ||
  (match el.tabindex with
   | some v =>
     match parseInt? v with
     | some n => 0 ≤ n
     | none => false
   | none => false) ||
  (el.tag = "LABEL" && el.hasFor)

/-- The scanner predicate under the amended reading: an explicit `tabindex`
attribute whose literal value is anything other than `"-1"` qualifies
(negative values other than the exact string `"-1"` included). -/
def amendedInteractive (el : Elem) : Bool :=
  (el.tag = "A" && el.hasHref) ||
  (["BUTTON", "INPUT", "SELECT", "TEXTAREA"].contains el.tag) ||
  (["button", "link", "menuitem", "checkbox", "switch"].contains el.role) ||
  el.hasOnclick ||
  (el.tabindex.isSome && !(el.tabindex = some "-1")) ||
  (el.tag = "LABEL" && el.hasFor)

/-- The label as the claim words it: visible text, or failing that value,
placeholder, or aria-label — truncated to the fixed maximum length (100)
whichever source it came from. -/
def specLabel (el : Elem) : String :=
  (if el.innerText ≠ "" then el.innerText
   else if el.value ≠ "" then el.value
   else if el.placeholder ≠ "" then el.placeholder
   else el.ariaLabel).take 100

/-- First non-empty string of a list (empty when all are empty). -/
def firstNonEmpty : List String → String
  | [] => ""
  | s :: rest => if s ≠ "" then s else firstNonEmpty rest

/-- The label under the amended reading: the first non-empty source among
the visible text truncated to 100 characters, then the value, placeholder
and aria-label, the three fallbacks taken verbatim (untruncated). -/
def amendedLabel (el : Elem) : String :=
  firstNonEmpty [el.innerText.take 100, el.value, el.placeholder, el.ariaLabel]

/-! ## Concrete elements for witnesses and counterexamples -/

/-- A visible 20×20 box at (10, 10). -/
def inertRect : Rect := ⟨10, 10, 20, 20⟩

/-- A fully visible computed style. -/
def visibleStyle : Style := ⟨"block", "visible", "1"⟩

/-- A plain `div` with no attributes of interest, used as the base of the
concrete examples. -/
def baseElem : Elem :=
  { eid := "", name := "", ariaLabel := "", tag := "DIV", hasHref := false
    role := "", hasOnclick := false, tabindex := none, hasFor := false
    innerText := "", value := "", placeholder := "", typeAttr := ""
    rect := inertRect, style := visibleStyle, chain := [] }

/-- A visible element exactly 5px wide (the documented inclusion
boundary). -/
def fivePxElem : Elem :=
  { baseElem with tag := "BUTTON", rect := ⟨10, 10, 5, 40⟩ }

/-- A visible element whose origin (10, 10) is inside an 800×600 viewport
but which extends far past its bottom and right edges. -/
def overflowElem : Elem :=
  { baseElem with tag := "BUTTON", rect := ⟨10, 10, 10000, 10000⟩ }

/-- The ancestor level of the structural-path examples: a bare `div` with no
identifier, classes or siblings. -/
def divLevel : Level :=
  { tag := "DIV", eid := "", classes := [], prevTags := [], nextTags := [] }

/-- The first of two sibling `button`s (one following same-tag sibling, no
preceding one), under a bare `div`; no id, name or aria-label. -/
def firstButtonElem : Elem :=
  { baseElem with
      tag := "BUTTON"
      chain := [{ tag := "BUTTON", eid := "", classes := [], prevTags := []
                  nextTags := ["BUTTON"] }, divLevel] }

/-- An element with identifier `submit-btn` and a non-trivial ancestor
chain. -/
def idElem : Elem :=
  { baseElem with
      tag := "BUTTON", eid := "submit-btn"
      chain := [{ tag := "BUTTON", eid := "submit-btn", classes := ["cta"]
                  prevTags := ["BUTTON"], nextTags := [] }, divLevel] }

/-- An element with a `name` attribute (and no id). -/
def namedElem : Elem :=
  { baseElem with tag := "INPUT", name := "q"
                  chain := [{ tag := "INPUT", eid := "", classes := []
                              prevTags := [], nextTags := [] }, divLevel] }

/-- An element with an `aria-label` (and no id or name). -/
def ariaElem : Elem :=
  { baseElem with tag := "BUTTON", ariaLabel := "Close"
                  chain := [{ tag := "BUTTON", eid := "", classes := []
                              prevTags := [], nextTags := [] }, divLevel] }

/-- An element whose `name` value contains a double-quote character. -/
def quoteNameElem : Elem :=
  { baseElem with tag := "INPUT", name := "a\"b" }

/-- A `div` whose only interactive feature is `tabindex="-2"`: an explicit
negative tab index other than the literal `-1`. -/
def negTabElem : Elem :=
  { baseElem with tabindex := some "-2" }

/-- A string of 101 identical characters, longer than the 100-character
truncation limit. -/
def longValue : String := String.mk (List.replicate 101 'a')

/-- An input with empty visible text and a 101-character `value`. -/
def longValueElem : Elem :=
  { baseElem with tag := "INPUT", innerText := "", value := longValue }

/-! ## Helper lemmas -/

/-- The entries pushed by the `forEach` loop are exactly the filter
survivors, each paired with its sequential badge id. -/
theorem injectLoop_entries (vw vh sx sy : ℚ) (els : List Elem) (k : Nat) :
    (injectLoop vw vh sx sy els k).2 =
      List.zipWith (mkEntry vw vh)
        (List.range' k (els.filter (fun e => !rejected vw vh e)).length)
        (els.filter (fun e => !rejected vw vh e)) := by
  induction els generalizing k with
  | nil => simp [injectLoop]
  | cons el rest ih =>
    cases hr : rejected vw vh el with
    | true => simp [injectLoop, hr, List.filter_cons, ih]
    | false => simp [injectLoop, hr, List.filter_cons, ih, List.range'_succ]

/-- The loop creates one badge node per manifest entry. -/
theorem injectLoop_length_eq (vw vh sx sy : ℚ) (els : List Elem) (k : Nat) :
    (injectLoop vw vh sx sy els k).1.length =
      (injectLoop vw vh sx sy els k).2.length := by
  induction els generalizing k with
  | nil => simp [injectLoop]
  | cons el rest ih =>
    cases hr : rejected vw vh el with
    | true => simp [injectLoop, hr, ih]
    | false => simp [injectLoop, hr, ih]

/-- The ids pushed by the loop starting from counter `k` are the contiguous
range `k, k+1, …` of the length of the produced manifest. -/
theorem injectLoop_ids (vw vh sx sy : ℚ) (els : List Elem) (k : Nat) :
    (injectLoop vw vh sx sy els k).2.map (fun e => e.id) =
      List.range' k (injectLoop vw vh sx sy els k).2.length := by
  induction els generalizing k with
  | nil => simp [injectLoop]
  | cons el rest ih =>
    cases hr : rejected vw vh el with
    | true => simp [injectLoop, hr, ih]
    | false => simp [injectLoop, hr, ih, List.range'_succ, mkEntry]

/-- The source's per-level fragment (base fragment plus conditional
`:nth-of-type`) agrees with the amended fragment: the qualifier appears
exactly when the 1-based same-tag position is at least 2. -/
theorem fragment_amended (l : Level) :
    (if nthOfType l > 1 then
       baseFragment l ++ ":nth-of-type(" ++ toString (nthOfType l) ++ ")"
     else baseFragment l) = amendedFragment l := by
  have hc : (if l.classes.length > 0 then
               "." ++ String.intercalate "." l.classes
             else "")
      = (if l.classes = [] then "" else "." ++ String.intercalate "." l.classes) := by
    cases l.classes <;> simp
  by_cases h2 : nthOfType l > 1
  · have h2' : 2 ≤ nthOfType l := h2
    simp [baseFragment, amendedFragment, h2, h2', hc, String.append_assoc]
  · have h2' : ¬(2 ≤ nthOfType l) := h2
    simp [baseFragment, amendedFragment, h2, h2', hc, String.append_empty]

/-- The source's accumulator walk equals the direct collection of amended
fragments (reversed to root-first order) prepended to the accumulator. -/
theorem buildPath_amendedCollect (chain : List Level) (acc : List String) :
    buildPath chain acc = (amendedCollect chain).reverse ++ acc := by
  induction chain generalizing acc with
  | nil => simp [buildPath, amendedCollect]
  | cons l rest ih =>
    by_cases h : l.eid = ""
    · rw [buildPath, amendedCollect]
      simp only [h, ne_eq, not_true_eq_false, if_neg, ite_false]
      rw [ih, ← fragment_amended]
      by_cases h2 : nthOfType l > 1 <;> simp [h2]
    · simp [buildPath, amendedCollect, h]

/-! ## Claim theorems -/

/-- C1: for every scan, the returned manifest lists exactly the candidates
that pass the visibility filter, in document order, as entries built with
sequential badge ids; the id sequence is the contiguous range starting at 1
(rejected candidates never consume an id). -/
theorem manifest_is_filter_survivors_with_sequential_ids
    (vw vh sx sy : ℚ) (s : DocState) :
    (inject vw vh sx sy s).2 =
      List.zipWith (mkEntry vw vh)
        (List.range' 1 ((scan s.elems).filter (fun e => !rejected vw vh e)).length)
        ((scan s.elems).filter (fun e => !rejected vw vh e)) ∧
    (inject vw vh sx sy s).2.map (fun e => e.id) =
      List.range' 1 (inject vw vh sx sy s).2.length := by
  refine ⟨?_, ?_⟩ <;> simp only [inject]
  · exact injectLoop_entries vw vh sx sy (scan s.elems) 1
  · exact injectLoop_ids vw vh sx sy (scan s.elems) 1

/-- C2: a candidate is rejected exactly when its width or height is below
5px, its computed style is display none / visibility hidden / opacity 0, its
top or left edge is negative, or its top (resp. left) edge exceeds the
viewport height (resp. width); in particular an element exactly 5px in one
dimension is kept, and an element whose origin is inside the viewport but
which extends past the bottom/right edge is kept. -/
theorem visibility_filter_characterization :
    (∀ (vw vh : ℚ) (el : Elem),
      rejected vw vh el = true ↔
        (el.rect.width < 5 ∨ el.rect.height < 5 ∨
         el.style.display = "none" ∨ el.style.visibility = "hidden" ∨
         el.style.opacity = "0" ∨
         el.rect.top < 0 ∨ el.rect.left < 0 ∨
         el.rect.top > vh ∨ el.rect.left > vw)) ∧
    rejected 800 600 fivePxElem = false ∧
    rejected 800 600 overflowElem = false := by
  refine ⟨fun vw vh el => ?_, by decide, by decide⟩
  simp only [rejected]
  split_ifs with h1 h2 h3 h4 <;> simp_all <;> tauto

/-- C3: the selector synthesizer follows the priority order identifier,
then name, then aria-label, then the structural ancestor path; an element
with a non-empty identifier yields `#<identifier>` whatever its ancestor
chain. -/
theorem selector_priority_order (el : Elem) :
    (el.eid ≠ "" → getUniqueSelector el = "#" ++ el.eid) ∧
    (el.eid = "" → el.name ≠ "" →
      getUniqueSelector el = "[name=\"" ++ el.name ++ "\"]") ∧
    (el.eid = "" → el.name = "" → el.ariaLabel ≠ "" →
      getUniqueSelector el = "[aria-label=\"" ++ el.ariaLabel ++ "\"]") ∧
    (el.eid = "" → el.name = "" → el.ariaLabel = "" →
      getUniqueSelector el = String.intercalate " > " (buildPath el.chain [])) := by
  refine ⟨fun h => ?_, fun h1 h2 => ?_, fun h1 h2 h3 => ?_, fun h1 h2 h3 => ?_⟩
  · simp [getUniqueSelector, h]
  · simp [getUniqueSelector, h1, h2]
  · simp [getUniqueSelector, h1, h2, h3]
  · simp [getUniqueSelector, h1, h2, h3]

/-- C3 witness: the four priority branches evaluated on concrete elements
(`#submit-btn` regardless of the ancestor chain, a name selector, an
aria-label selector, and a structural path). -/
theorem selector_priority_order_witness :
    getUniqueSelector idElem = "#submit-btn" ∧
    getUniqueSelector namedElem = "[name=\"q\"]" ∧
    getUniqueSelector ariaElem = "[aria-label=\"Close\"]" ∧
    getUniqueSelector firstButtonElem =
      String.intercalate " > " (buildPath firstButtonElem.chain []) :=
  ⟨(selector_priority_order idElem).1 (by decide),
   (selector_priority_order namedElem).2.1 rfl (by decide),
   (selector_priority_order ariaElem).2.2.1 rfl rfl (by decide),
   (selector_priority_order firstButtonElem).2.2.2 rfl rfl rfl⟩

/-- C4 counterexample: for the first of two sibling buttons under a bare
`div` (no id/name/aria-label anywhere), the code produces `div > button`
while the claim's construction — `:nth-of-type(k)` whenever more than one
same-tag sibling exists at the level, fragments joined with the descendant
combinator — produces `div button:nth-of-type(1)`. -/
theorem structural_path_spec_counterexample :
    firstButtonElem.eid = "" ∧ firstButtonElem.name = "" ∧
    firstButtonElem.ariaLabel = "" ∧
    getUniqueSelector firstButtonElem = "div > button" ∧
    specStructuralPath firstButtonElem.chain = "div button:nth-of-type(1)" ∧
    getUniqueSelector firstButtonElem ≠ specStructuralPath firstButtonElem.chain :=
  ⟨rfl, rfl, rfl, by decide, by decide, by decide⟩

/-- C4 (amended): for an element with no identifier, name or aria-label,
the selector is the structural path whose per-level fragments carry a
`:nth-of-type(k)` qualifier exactly when the element's 1-based position
among same-tag siblings is at least 2 (i.e. it has a preceding same-tag
sibling), the walk stopping at the first ancestor with an identifier, the
fragments joined root-to-leaf with the child combinator `' > '`. -/
theorem structural_path_amended (el : Elem)
    (h1 : el.eid = "") (h2 : el.name = "") (h3 : el.ariaLabel = "") :
    getUniqueSelector el = amendedStructuralPath el.chain := by
  simp [getUniqueSelector, h1, h2, h3, amendedStructuralPath,
        buildPath_amendedCollect]

/-- C4 witness: the amended structural path evaluated on the first of two
sibling buttons. -/
theorem structural_path_amended_witness :
    firstButtonElem.eid = "" ∧ firstButtonElem.name = "" ∧
    firstButtonElem.ariaLabel = "" ∧
    getUniqueSelector firstButtonElem = amendedStructuralPath firstButtonElem.chain ∧
    amendedStructuralPath firstButtonElem.chain = "div > button" :=
  ⟨rfl, rfl, rfl, structural_path_amended firstButtonElem rfl rfl rfl, by decide⟩

/-- C5: the region classifier computes the box's center, classifies it into
the spec's vertical zone (top 15% / bottom 15% / middle) and horizontal zone
(left 20% / right 20% / center) independently, and applies the spec's
name table, bottom collapsing the horizontal distinction. -/
theorem region_classifier_matches_spec (vw vh x y w h : ℚ) :
    getRegion vw vh x y w h = specRegion vw vh x y w h := by
  have h1 : (vw * (20 / 100) : ℚ) = vw * (2 / 10) := by norm_num
  have h2 : (vw * (80 / 100) : ℚ) = vw * (8 / 10) := by norm_num
  simp only [getRegion, specRegion, specVZone, specHZone, h1, h2]
  split_ifs <;> simp_all [specRegionName]

/-- C6 counterexample: a `div` whose only interactive feature is
`tabindex="-2"` — an explicit negative tab index other than the literal
`-1` — is enumerated by the scanner, contradicting the claim that every
enumerated element carrying an explicit tab index has a non-negative one. -/
theorem scanner_negative_tabindex_counterexample :
    negTabElem.tabindex = some "-2" ∧
    matchesInteractive negTabElem = true ∧
    scan [negTabElem] = [negTabElem] ∧
    specInteractive negTabElem = false ∧
    List.filter specInteractive [negTabElem] = [] :=
  ⟨rfl, by decide, by decide, by decide, by decide⟩

/-- C6 (amended): the scanner enumerates, in document order, exactly the
elements matching the fixed candidate set, where the tab-index clause reads:
an explicit `tabindex` attribute whose literal value is anything other than
`"-1"` (negative values other than that exact string included). -/
theorem scanner_matches_amended_predicate (doc : List Elem) :
    scan doc = doc.filter amendedInteractive ∧ (scan doc).Sublist doc := by
  have hpred : ∀ el, matchesInteractive el = amendedInteractive el := by
    intro el
    cases h : el.tabindex <;>
      simp [matchesInteractive, amendedInteractive, h, Bool.or_assoc]
  exact ⟨List.filter_congr (fun el _ => hpred el), List.filter_sublist doc⟩

/-- C7: `inject()` removes every badge from a previous invocation before
rendering: from any prior badge state the rendered badge count equals the
returned manifest's length, and the resulting badges coincide with those of
a scan started from the clean state. -/
theorem inject_badge_count_matches_manifest
    (vw vh sx sy : ℚ) (els : List Elem) (bs : List Badge) :
    (inject vw vh sx sy ⟨els, bs⟩).1.badges.length =
      (inject vw vh sx sy ⟨els, bs⟩).2.length ∧
    (inject vw vh sx sy ⟨els, bs⟩).1.badges =
      (inject vw vh sx sy ⟨els, []⟩).1.badges := by
  refine ⟨?_, rfl⟩
  simp only [inject]
  exact injectLoop_length_eq vw vh sx sy (scan els) 1

/-- C8: `inject()` is deterministic — a second scan over the unchanged
element tree (the state left by the first scan) returns the very same
manifest, hence identical (selector, region) pairs per corresponding
element, and both manifests' ids restart at 1. -/
theorem inject_deterministic_across_scans (vw vh sx sy : ℚ) (s : DocState) :
    (inject vw vh sx sy (inject vw vh sx sy s).1).2 = (inject vw vh sx sy s).2 ∧
    (inject vw vh sx sy (inject vw vh sx sy s).1).2.map
        (fun e => (e.selector, e.region)) =
      (inject vw vh sx sy s).2.map (fun e => (e.selector, e.region)) ∧
    (inject vw vh sx sy s).2.map (fun e => e.id) =
      List.range' 1 (inject vw vh sx sy s).2.length ∧
    (inject vw vh sx sy (inject vw vh sx sy s).1).2.map (fun e => e.id) =
      List.range' 1 (inject vw vh sx sy (inject vw vh sx sy s).1).2.length := by
  refine ⟨rfl, rfl, ?_, ?_⟩ <;> simp only [inject] <;>
    exact injectLoop_ids vw vh sx sy (scan s.elems) 1

set_option maxRecDepth 4000 in
/-- C9 counterexample: an input with empty visible text and a 101-character
`value` gets that value as its label verbatim — 101 characters, exceeding
the fixed maximum (100) the claim says applies whichever source the label
came from. -/
theorem label_truncation_counterexample :
    longValueElem.innerText = "" ∧
    longValueElem.value.length = 101 ∧
    labelOf longValueElem = longValueElem.value ∧
    (labelOf longValueElem).length = 101 ∧
    specLabel longValueElem ≠ labelOf longValueElem ∧
    (specLabel longValueElem).length = 100 := by
  refine ⟨rfl, ?_, ?_, ?_, ?_, ?_⟩ <;> decide

/-- C9 (amended): the label is the element's visible text truncated to the
fixed maximum length (100), or failing that its value, placeholder, or
aria-label taken verbatim — only the visible-text source is truncated. -/
theorem label_matches_amended_spec (el : Elem) :
    labelOf el = amendedLabel el := by
  simp [labelOf, amendedLabel, firstNonEmpty]

/-- C10: in the name and aria-label branches the attribute value is
interpolated verbatim into the attribute-equality selector, so every
character of the value — a double quote included — reappears unescaped in
the returned selector string. -/
theorem selector_attribute_value_verbatim (el : Elem) :
    (el.eid = "" → el.name ≠ "" →
      getUniqueSelector el = "[name=\"" ++ el.name ++ "\"]" ∧
      ∀ c ∈ el.name.data, c ∈ (getUniqueSelector el).data) ∧
    (el.eid = "" → el.name = "" → el.ariaLabel ≠ "" →
      getUniqueSelector el = "[aria-label=\"" ++ el.ariaLabel ++ "\"]" ∧
      ∀ c ∈ el.ariaLabel.data, c ∈ (getUniqueSelector el).data) := by
  constructor
  · intro h1 h2
    have hs : getUniqueSelector el = "[name=\"" ++ el.name ++ "\"]" := by
      simp [getUniqueSelector, h1, h2]
    refine ⟨hs, fun c hc => ?_⟩
    rw [hs]
    simp [String.data_append, List.mem_append]
    tauto
  · intro h1 h2 h3
    have hs : getUniqueSelector el = "[aria-label=\"" ++ el.ariaLabel ++ "\"]" := by
      simp [getUniqueSelector, h1, h2, h3]
    refine ⟨hs, fun c hc => ?_⟩
    rw [hs]
    simp [String.data_append, List.mem_append]
    tauto

/-- C10 witness: an input named `a"b` yields the malformed selector
`[name="a"b"]`, the raw double quote of the value included. -/
theorem selector_attribute_value_verbatim_witness :
    getUniqueSelector quoteNameElem = "[name=\"a\"b\"]" ∧
    '"' ∈ (getUniqueSelector quoteNameElem).data := by
  have h := (selector_attribute_value_verbatim quoteNameElem).1 rfl (by decide)
  exact ⟨h.1, h.2 '"' (by decide)⟩

end Dooley
